import Mathlib

/-!
Verification of the `realcugan_rs` Rust crate: a shallow embedding of its
safe layer (parameter heuristics, builder configuration, native handle
lifecycle, image marshalling) together with proofs of the specified
properties.

Rust `i32` values are modelled as `Int` equipped with explicit range checks
at the points where the source performs a conversion (`try_from`) or where
an arithmetic overflow would abort the program; Rust `u8`/`u32` values are
modelled as `Nat` with explicit `% 2 ^ w` wrap-around where the source can
wrap (the `AtomicU8` instance counter, the `u32 → i32` cast of the heap
budget).  Calls across the C boundary are modelled by oracle records: the
values the native engine would have returned are parameters of the
embedded functions, and the side effects the Rust layer performs on the
engine (free, destroy, bytes read) are returned as explicit counters.
-/

namespace RealcuganRs

/-- Smallest `i32` value. -/
def i32Min : Int := -2147483648

/-- Largest `i32` value. -/
def i32Max : Int := 2147483647

/-- `i32::try_from` on a `u32`-sized natural number (used for image
width/height): succeeds exactly when the value fits in `i32`. -/
def i32TryFromNat (n : Nat) : Except String Int :=
  if (n : Int) ≤ i32Max then Except.ok (n : Int)
  else Except.error "out of range integral type conversion attempted"

/-- `usize::try_from` on an `i32` value: fails exactly on negative input. -/
def usizeTryFromInt (x : Int) : Except String Nat :=
  if 0 ≤ x then Except.ok x.toNat
  else Except.error "out of range integral type conversion attempted"

/-- The cast `as i32` applied to a C `unsigned int`, two's complement. -/
def uintAsI32 (n : Nat) : Int :=
  if n % 4294967296 < 2147483648 then ((n % 4294967296 : Nat) : Int)
  else ((n % 4294967296 : Nat) : Int) - 4294967296

/-- The cast `as u32` applied to an `i32` value, two's complement. -/
def i32AsU32 (x : Int) : Nat := (x % 4294967296).toNat

/-- Checked `i32` multiplication.  Rust integer overflow aborts the program
(panic); the abort is modelled as `none`. -/
def i32CheckedMul (a b : Int) : Option Int :=
  if i32Min ≤ a * b ∧ a * b ≤ i32Max then some (a * b) else none

/-- `RealCugan::calculate_prepadding` from `src/rs/realcugan.rs`. -/
def calculate_prepadding (scale : Int) : Except String Int :=
  match scale with
  | 2 => Except.ok 18
  | 3 => Except.ok 14
  | 4 => Except.ok 19
  | _ => Except.error "invalid scale value. expected 2, 3, or 4"

/-- `thresholds.iter().find(|(threshold, _)| heap_budget > *threshold)
.map(|&(_, size)| size).unwrap_or(MIN_TILE_SIZE)` from
`RealCugan::calculate_tile_size`. -/
def pickTile (heap_budget : Int) (thresholds : List (Int × Int)) : Int :=
  ((thresholds.find? (fun p => heap_budget > p.1)).map (fun p => p.2)).getD 32

/-- `RealCugan::calculate_tile_size` from `src/rs/realcugan.rs`.  The
native call `realcugan_get_heap_budget(gpu)` is an oracle parameter
`heap_budget : Nat` (a C `unsigned int`); the source casts it `as i32`. -/
def calculate_tile_size (tile_size scale gpu : Int) (heap_budget : Nat) : Int :=
  if tile_size ≠ 0 then tile_size
  else if gpu = -1 then 400
  else
    let hb := uintAsI32 heap_budget
    match scale with
    | 2 => pickTile hb [(1300, 400), (800, 300), (200, 100)]
    | 3 => pickTile hb [(3300, 400), (1900, 300), (950, 200), (320, 100)]
    | 4 => pickTile hb [(1690, 400), (980, 300), (530, 200), (240, 100)]
    | _ => 32

/-- The `#[repr(C)] struct Image` of `src/rs/realcugan.rs`: width, height
and channel count are C `int` (`i32`).  The `data` pointer is native
memory and is not part of the embedding; the bytes behind it appear as
oracle data where they are read. -/
structure Image where
  w : Int
  h : Int
  c : Int
deriving DecidableEq

/-- The decoded images of the external `image` crate as they can reach
`RealCugan::process_image` (via `image::open` / `load_from_memory` or
directly): the four 8-bit variants (`ImageLuma8`, `ImageLumaA8`,
`ImageRgb8`, `ImageRgba8`) and the four 16-bit variants (`ImageLuma16`,
`ImageLumaA16`, `ImageRgb16`, `ImageRgba16`), as dimensions plus the
row-major pixel list (components 0–255 or 0–65535).  The two `f32`
variants (`ImageRgb32F`, `ImageRgba32F`) are omitted: their pixel
payloads are IEEE-754 floats; in `prepare_image` they take the same
default pass-through branch as the 16-bit RGB/RGBA variants modelled
here, with `bytes_per_pixel` 12 and 16 reported as the channel count. -/
inductive DynamicImage where
  | luma (w h : Nat) (px : List Nat)
  | lumaA (w h : Nat) (px : List (Nat × Nat))
  | rgb (w h : Nat) (px : List (Nat × Nat × Nat))
  | rgba (w h : Nat) (px : List (Nat × Nat × Nat × Nat))
  | luma16 (w h : Nat) (px : List Nat)
  | lumaA16 (w h : Nat) (px : List (Nat × Nat))
  | rgb16 (w h : Nat) (px : List (Nat × Nat × Nat))
  | rgba16 (w h : Nat) (px : List (Nat × Nat × Nat × Nat))
deriving DecidableEq

/-- `DynamicImage::width`. -/
def DynamicImage.width : DynamicImage → Nat
  | .luma w _ _ => w
  | .lumaA w _ _ => w
  | .rgb w _ _ => w
  | .rgba w _ _ => w
  | .luma16 w _ _ => w
  | .lumaA16 w _ _ => w
  | .rgb16 w _ _ => w
  | .rgba16 w _ _ => w

/-- `DynamicImage::height`. -/
def DynamicImage.height : DynamicImage → Nat
  | .luma _ h _ => h
  | .lumaA _ h _ => h
  | .rgb _ h _ => h
  | .rgba _ h _ => h
  | .luma16 _ h _ => h
  | .lumaA16 _ h _ => h
  | .rgb16 _ h _ => h
  | .rgba16 _ h _ => h

/-- `image.color().bytes_per_pixel()`: channel count times bytes per
component, so it equals the channel count only for the 8-bit variants. -/
def DynamicImage.bytesPerPixel : DynamicImage → Nat
  | .luma _ _ _ => 1
  | .lumaA _ _ _ => 2
  | .rgb _ _ _ => 3
  | .rgba _ _ _ => 4
  | .luma16 _ _ _ => 2
  | .lumaA16 _ _ _ => 4
  | .rgb16 _ _ _ => 6
  | .rgba16 _ _ _ => 8

/-- `image.color().channel_count()`: the number of color/alpha channels,
independent of component width. -/
def DynamicImage.channelCount : DynamicImage → Nat
  | .luma _ _ _ => 1
  | .lumaA _ _ _ => 2
  | .rgb _ _ _ => 3
  | .rgba _ _ _ => 4
  | .luma16 _ _ _ => 1
  | .lumaA16 _ _ _ => 2
  | .rgb16 _ _ _ => 3
  | .rgba16 _ _ _ => 4

/-- The `image` crate's `u16` → `u8` component conversion, the rounding
rescale `round(v * 255 / 65535)`, computed as `(v + 128) / 257`. -/
def u16AsU8 (v : Nat) : Nat := (v + 128) / 257

/-- `DynamicImage::to_rgb8` of the `image` crate: luminance is replicated
into the three color channels, alpha is dropped, 16-bit components are
rescaled to 8 bits. -/
def DynamicImage.to_rgb8 : DynamicImage → DynamicImage
  | .luma w h px => .rgb w h (px.map (fun l => (l, l, l)))
  | .lumaA w h px => .rgb w h (px.map (fun p => (p.1, p.1, p.1)))
  | .rgb w h px => .rgb w h px
  | .rgba w h px => .rgb w h (px.map (fun p => (p.1, p.2.1, p.2.2.1)))
  | .luma16 w h px => .rgb w h (px.map (fun l => (u16AsU8 l, u16AsU8 l, u16AsU8 l)))
  | .lumaA16 w h px => .rgb w h (px.map (fun p => (u16AsU8 p.1, u16AsU8 p.1, u16AsU8 p.1)))
  | .rgb16 w h px => .rgb w h (px.map (fun p => (u16AsU8 p.1, u16AsU8 p.2.1, u16AsU8 p.2.2)))
  | .rgba16 w h px =>
    .rgb w h (px.map (fun p => (u16AsU8 p.1, u16AsU8 p.2.1, u16AsU8 p.2.2.1)))

/-- `DynamicImage::to_rgba8` of the `image` crate: luminance is replicated
into the three color channels, alpha is preserved (opaque when absent),
16-bit components are rescaled to 8 bits. -/
def DynamicImage.to_rgba8 : DynamicImage → DynamicImage
  | .luma w h px => .rgba w h (px.map (fun l => (l, l, l, 255)))
  | .lumaA w h px => .rgba w h (px.map (fun p => (p.1, p.1, p.1, p.2)))
  | .rgb w h px => .rgba w h (px.map (fun p => (p.1, p.2.1, p.2.2, 255)))
  | .rgba w h px => .rgba w h px
  | .luma16 w h px => .rgba w h (px.map (fun l => (u16AsU8 l, u16AsU8 l, u16AsU8 l, 255)))
  | .lumaA16 w h px =>
    .rgba w h (px.map (fun p => (u16AsU8 p.1, u16AsU8 p.1, u16AsU8 p.1, u16AsU8 p.2)))
  | .rgb16 w h px =>
    .rgba w h (px.map (fun p => (u16AsU8 p.1, u16AsU8 p.2.1, u16AsU8 p.2.2, 255)))
  | .rgba16 w h px =>
    .rgba w h (px.map (fun p => (u16AsU8 p.1, u16AsU8 p.2.1, u16AsU8 p.2.2.1, u16AsU8 p.2.2.2)))

/-- `RealCugan::prepare_image` from `src/rs/realcugan.rs` (it does not use
`self`). -/
def prepare_image (image : DynamicImage) : DynamicImage × Nat :=
  let bytes_per_pixel := image.bytesPerPixel
  match bytes_per_pixel with
  | 1 => (image.to_rgb8, 3)
  | 2 => (image.to_rgba8, 4)
  | _ => (image, bytes_per_pixel)

/-- Group a flat byte list into luminance+alpha pixels. -/
def groupLumaA : List Nat → List (Nat × Nat)
  | l :: a :: rest => (l, a) :: groupLumaA rest
  | _ => []

/-- Group a flat byte list into RGB pixels. -/
def groupRgb : List Nat → List (Nat × Nat × Nat)
  | r :: g :: b :: rest => (r, g, b) :: groupRgb rest
  | _ => []

/-- Group a flat byte list into RGBA pixels. -/
def groupRgba : List Nat → List (Nat × Nat × Nat × Nat)
  | r :: g :: b :: a :: rest => (r, g, b, a) :: groupRgba rest
  | _ => []

/-- `GrayImage::from_raw` of the `image` crate: succeeds when the buffer
holds at least `width * height * 1` bytes. -/
def lumaFromRaw (width height : Nat) (bytes : List Nat) : Option DynamicImage :=
  if width * height * 1 ≤ bytes.length then
    some (.luma width height (bytes.take (width * height * 1)))
  else none

/-- `GrayAlphaImage::from_raw` of the `image` crate. -/
def lumaAFromRaw (width height : Nat) (bytes : List Nat) : Option DynamicImage :=
  if width * height * 2 ≤ bytes.length then
    some (.lumaA width height (groupLumaA (bytes.take (width * height * 2))))
  else none

/-- `RgbImage::from_raw` of the `image` crate. -/
def rgbFromRaw (width height : Nat) (bytes : List Nat) : Option DynamicImage :=
  if width * height * 3 ≤ bytes.length then
    some (.rgb width height (groupRgb (bytes.take (width * height * 3))))
  else none

/-- `RgbaImage::from_raw` of the `image` crate. -/
def rgbaFromRaw (width height : Nat) (bytes : List Nat) : Option DynamicImage :=
  if width * height * 4 ≤ bytes.length then
    some (.rgba width height (groupRgba (bytes.take (width * height * 4))))
  else none

/-- `RealCugan::convert_image` from `src/rs/realcugan.rs`. -/
def convert_image (width height : Nat) (channels : Nat) (bytes : List Nat) :
    Except String DynamicImage :=
  match
    (match channels with
     | 4 => rgbaFromRaw width height bytes
     | 3 => rgbFromRaw width height bytes
     | 2 => lumaAFromRaw width height bytes
     | 1 => lumaFromRaw width height bytes
     | _ => none) with
  | some img => Except.ok img
  | none => Except.error "invalid number of channels. expected 1, 2, 3, or 4"

/-- The `RealCugan` handle of `src/rs/realcugan.rs`.  The
`Arc<AtomicPtr<c_void>>` field is modelled by whether the stored native
pointer is null; the reference count of the `Arc` lives in the lifecycle
state below. -/
structure RealCugan where
  pointerNull : Bool
  scale_factor : Int
  use_cpu : Bool
deriving DecidableEq

/-- Oracle for one call of `realcugan_process` / `realcugan_process_cpu`:
the returned status and the contents of the engine-owned output buffer
(byte at each index). -/
structure NativeProcessResult where
  status : Int
  buf : Nat → Nat

/-- Side effects of the Rust layer on the native engine during one
`process` call: how many bytes were read out of the engine-owned output
buffer, and how many times `realcugan_free_image` was called on the native
result handle. -/
structure ProcEffects where
  bytesRead : Nat
  freeImageCalls : Nat
deriving DecidableEq

/-- `RealCugan::process` from `src/rs/realcugan.rs`.  The CPU and GPU
entry points are the same oracle.  `i32` arithmetic on the buffer length
(`out_buffer.h * out_buffer.w * out_buffer.c`) aborts on overflow, which
is modelled as the outer `none`. -/
def RealCugan.process (self : RealCugan) (in_buffer out_buffer : Image) (channels : Nat)
    (native : NativeProcessResult) : Option (Except String DynamicImage × ProcEffects) :=
  if self.pointerNull then some (Except.error "invalid pointer", ⟨0, 0⟩)
  else if native.status ≠ 0 then some (Except.error "failed to process image", ⟨0, 1⟩)
  else
    match (i32CheckedMul out_buffer.h out_buffer.w).bind
        (fun p => i32CheckedMul p out_buffer.c) with
    | none => none
    | some prod =>
      match usizeTryFromInt prod with
      | Except.error e => some (Except.error ("invalid buffer length: " ++ e), ⟨0, 0⟩)
      | Except.ok length =>
        let copied_bytes := (List.range length).map native.buf
        some (convert_image (i32AsU32 out_buffer.w) (i32AsU32 out_buffer.h) channels
          copied_bytes, ⟨length, 1⟩)

/-- `RealCugan::create_input_buffer` from `src/rs/realcugan.rs` (the
non-owning `data` pointer is omitted). -/
def create_input_buffer (image : DynamicImage) (channels : Nat) : Except String Image :=
  match i32TryFromNat image.width with
  | Except.error e => Except.error ("invalid width: " ++ e)
  | Except.ok w =>
    match i32TryFromNat image.height with
    | Except.error e => Except.error ("invalid height: " ++ e)
    | Except.ok h => Except.ok { w := w, h := h, c := (channels : Int) }

/-- `RealCugan::create_output_buffer` from `src/rs/realcugan.rs`: the
`i32` multiplications by the scale factor abort on overflow (`none`). -/
def create_output_buffer (scale_factor : Int) (in_buffer : Image) (channels : Nat) :
    Option Image :=
  match i32CheckedMul in_buffer.w scale_factor, i32CheckedMul in_buffer.h scale_factor with
  | some w, some h => some { w := w, h := h, c := (channels : Int) }
  | _, _ => none

/-- `RealCugan::process_image` from `src/rs/realcugan.rs`; `none` is an
abort (integer overflow panic) inside the call. -/
def RealCugan.process_image (self : RealCugan) (image : DynamicImage)
    (native : NativeProcessResult) : Option (Except String DynamicImage × ProcEffects) :=
  match prepare_image image with
  | (image, channels) =>
    match create_input_buffer image channels with
    | Except.error e => some (Except.error e, ⟨0, 0⟩)
    | Except.ok input_buffer =>
      match create_output_buffer self.scale_factor input_buffer channels with
      | none => none
      | some output_buffer => self.process input_buffer output_buffer channels native

/-- `RealCugan::validate_gpu` from `src/rs/realcugan.rs`.  The native
calls are oracles: `gpuCount` is what `realcugan_get_gpu_count()` returns
and `instances` is the current value of the `INSTANCES` atomic.  The
second component counts calls of `realcugan_destroy_gpu_instance`. -/
def validate_gpu (gpu : Int) (gpuCount : Int) (instances : Nat) :
    Except String Unit × Nat :=
  if gpu = -1 then (Except.ok (), 0)
  else if gpu ≥ gpuCount then
    (Except.error "gpu not found", if instances = 0 then 1 else 0)
  else (Except.ok (), 0)

/-- `RealCugan::load_model` from `src/rs/realcugan.rs`: `fmemBinOk` /
`fmemParamOk` say whether the two `fmemopen` in-memory file views could be
created, `loadStatus` is the status `realcugan_load_files` returns. -/
def load_model (fmemBinOk fmemParamOk : Bool) (loadStatus : Int) : Except String Unit :=
  if !fmemBinOk || !fmemParamOk then Except.error "failed to create file pointers"
  else if loadStatus ≠ 0 then Except.error "failed to load model files"
  else Except.ok ()

/-- Oracle for the native calls made during `RealCugan::new`. -/
structure NewOracle where
  gpuCount : Int
  heapBudget : Nat
  initPtrNull : Bool
  fmemBinOk : Bool
  fmemParamOk : Bool
  loadStatus : Int
deriving DecidableEq

/-- Result of `RealCugan::new` together with its observable effects on the
native layer: the `INSTANCES` counter after the call, how many times
`realcugan_free` was called during the call, how many times
`realcugan_destroy_gpu_instance` was called during the call, and the
numeric parameters handed to `realcugan_set_parameters` (if reached). -/
structure NewOutcome where
  result : Except String RealCugan
  instances : Nat
  frees : Nat
  destroys : Nat
  setParams : Option (Int × Int × Int × Int × Int)

/-- `RealCugan::new` from `src/rs/realcugan.rs`.  `instances0` is the
value of the `AtomicU8` counter `INSTANCES` before the call; `threads`,
`tta`, `param` and `bin` are forwarded to the opaque native init/load
calls and do not influence the modelled control flow. -/
def RealCugan.new (gpu threads : Int) (tta : Bool) (sync_gap tile_size scale noise : Int)
    (param bin : List Nat) (o : NewOracle) (instances0 : Nat) : NewOutcome :=
  match validate_gpu gpu o.gpuCount instances0 with
  | (Except.error e, d) =>
    { result := Except.error e, instances := instances0, frees := 0, destroys := d,
      setParams := none }
  | (Except.ok _, _) =>
    match calculate_prepadding scale with
    | Except.error e =>
      { result := Except.error e, instances := instances0, frees := 0, destroys := 0,
        setParams := none }
    | Except.ok prepadding =>
      let tile_size := calculate_tile_size tile_size scale gpu o.heapBudget
      match load_model o.fmemBinOk o.fmemParamOk o.loadStatus with
      | Except.error e =>
        { result := Except.error e, instances := instances0, frees := 0, destroys := 0,
          setParams := none }
      | Except.ok _ =>
        { result := Except.ok
            { pointerNull := o.initPtrNull, scale_factor := scale, use_cpu := gpu = -1 },
          instances := (instances0 + 1) % 256, frees := 0, destroys := 0,
          setParams := some (scale, noise, prepadding, sync_gap, tile_size) }

/-- Shared-ownership state of one successfully constructed handle and the
globals it touches: `strong` is `Arc::strong_count` over the clones,
`freed` counts `realcugan_free` calls on the wrapped pointer, `instances`
is the process-wide `AtomicU8` counter `INSTANCES`, and `destroys` counts
`realcugan_destroy_gpu_instance` calls made by drops. -/
structure LifeState where
  strong : Nat
  ptrNull : Bool
  freed : Nat
  instances : Nat
  destroys : Nat
deriving DecidableEq

/-- The two operations callers can perform on the set of clones of a
handle: `Clone::clone` and `Drop::drop` from `src/rs/realcugan.rs`. -/
inductive HandleOp where
  | clone
  | drop
deriving DecidableEq

/-- One `Clone::clone` or `Drop::drop` step.  Either requires a live
handle (`strong ≠ 0`); `drop` with `Arc::strong_count == 1` frees the
pointer if non-null, decrements `INSTANCES` (`AtomicU8::fetch_sub` wraps
mod 256) and, when the counter's previous value was 1, calls
`realcugan_destroy_gpu_instance`. -/
def applyOp (s : LifeState) (op : HandleOp) : Option LifeState :=
  if s.strong = 0 then none
  else
    match op with
    | .clone => some { s with strong := s.strong + 1 }
    | .drop =>
      if s.strong = 1 then
        some { s with
          strong := 0,
          freed := s.freed + (if s.ptrNull then 0 else 1),
          instances := (s.instances + 255) % 256,
          destroys := s.destroys + (if s.instances = 1 then 1 else 0) }
      else some { s with strong := s.strong - 1 }

/-- Run a sequence of clone/drop operations. -/
def applyOps (s : LifeState) : List HandleOp → Option LifeState
  | [] => some s
  | op :: ops => (applyOp s op).bind (fun t => applyOps t ops)

/-- Lifecycle state right after a successful `RealCugan::new` returned the
handle `h`, with `instances` the counter value after the construction. -/
def initLife (h : RealCugan) (instances : Nat) : LifeState :=
  { strong := 1, ptrNull := h.pointerNull, freed := 0, instances := instances,
    destroys := 0 }

/-- The `GeneralParameters` struct of `src/rs/builder.rs`. -/
structure GeneralParameters where
  gpu : Int
  tile_size : Int
  sync_gap : Int
  threads : Int
  tta : Bool
deriving DecidableEq

/-- The `ModelParameters` struct of `src/rs/builder.rs` (`&[u8]` slices as
byte lists). -/
structure ModelParameters where
  param : List Nat
  bin : List Nat
  scale : Int
  noise : Int
  allow_sync_gap : Bool
deriving DecidableEq

/-- The `SyncGap` enum of `src/rs/builder.rs`. -/
inductive SyncGap where
  | Disabled
  | Loose
  | Moderate
  | Strict
deriving DecidableEq

/-- The `Builder` struct of `src/rs/builder.rs`. -/
structure Builder where
  files : Option (String × String)
  parameters : GeneralParameters
  model_parameters : ModelParameters
deriving DecidableEq

/-- `Default for Builder` from `src/rs/builder.rs`. -/
def Builder.default : Builder :=
  { files := none,
    parameters := { gpu := 0, tile_size := 0, sync_gap := 3, tta := false, threads := 1 },
    model_parameters :=
      { param := [], bin := [], scale := 2, noise := -1, allow_sync_gap := true } }

/-- `Builder::new`. -/
def Builder.new : Builder := Builder.default

/-- `Builder::gpu` (the source takes a `u32` and casts it `as i32`). -/
def Builder.gpu (self : Builder) (gpu : Nat) : Builder :=
  { self with parameters := { self.parameters with gpu := uintAsI32 gpu } }

/-- `Builder::cpu`. -/
def Builder.cpu (self : Builder) : Builder :=
  { self with parameters := { self.parameters with gpu := -1 } }

/-- `Builder::tta`. -/
def Builder.tta (self : Builder) : Builder :=
  { self with parameters := { self.parameters with tta := true } }

/-- `Builder::tile_size` (the source takes a `u32` and casts it `as i32`). -/
def Builder.tile_size (self : Builder) (tile_size : Nat) : Builder :=
  { self with parameters := { self.parameters with tile_size := uintAsI32 tile_size } }

/-- `Builder::sync_gap`. -/
def Builder.sync_gap (self : Builder) (sync_gap : SyncGap) : Builder :=
  { self with parameters := { self.parameters with
      sync_gap :=
        match sync_gap with
        | .Disabled => 0
        | .Loose => 1
        | .Moderate => 2
        | .Strict => 3 } }

/-- `Builder::threads`. -/
def Builder.threads (self : Builder) (threads : Int) : Builder :=
  { self with parameters := { self.parameters with threads := threads } }

/-- `Builder::scale`. -/
def Builder.scale (self : Builder) (scale : Int) : Builder :=
  { self with model_parameters := { self.model_parameters with scale := scale } }

/-- `Builder::noise`. -/
def Builder.noise (self : Builder) (noise : Int) : Builder :=
  { self with model_parameters := { self.model_parameters with noise := noise } }

/-- `Builder::model_files`. -/
def Builder.model_files (self : Builder) (param_file bin_file : String) : Builder :=
  { self with files := some (param_file, bin_file) }

/-- `Builder::model_bytes`. -/
def Builder.model_bytes (self : Builder) (param bin : List Nat) : Builder :=
  { self with
    files := none,
    model_parameters := { self.model_parameters with param := param, bin := bin } }

/-- `Builder::get_bytes` from `src/rs/builder.rs`; the filesystem is the
oracle `fs`, mapping a path to its contents when readable. -/
def Builder.get_bytes (self : Builder) (fs : String → Option (List Nat)) :
    Except String (List Nat × List Nat) :=
  match self.files with
  | some (param_file, bin_file) =>
    match fs param_file with
    | none => Except.error "failed to read param file"
    | some param =>
      match fs bin_file with
      | none => Except.error "failed to read bin file"
      | some bin => Except.ok (param, bin)
  | none => Except.ok (self.model_parameters.param, self.model_parameters.bin)

/-- The argument tuple `Builder::build` hands to `RealCugan::new`. -/
structure NewArgs where
  gpu : Int
  threads : Int
  tta : Bool
  sync_gap : Int
  tile_size : Int
  scale : Int
  noise : Int
  param : List Nat
  bin : List Nat
deriving DecidableEq

/-- The resolution step of `Builder::build` from `src/rs/builder.rs`: the
bytes from `get_bytes`, the sync-gap override for models that disallow
it, and the argument values passed on to `RealCugan::new`. -/
def Builder.buildArgs (self : Builder) (fs : String → Option (List Nat)) :
    Except String NewArgs :=
  match self.get_bytes fs with
  | Except.error e => Except.error e
  | Except.ok (param, bin) =>
    let sync_gap :=
      if self.model_parameters.allow_sync_gap then self.parameters.sync_gap else 0
    Except.ok
      { gpu := self.parameters.gpu, threads := self.parameters.threads,
        tta := self.parameters.tta, sync_gap := sync_gap,
        tile_size := self.parameters.tile_size, scale := self.model_parameters.scale,
        noise := self.model_parameters.noise, param := param, bin := bin }

/-- `Builder::build` from `src/rs/builder.rs`: resolve, then construct. -/
def Builder.build (self : Builder) (fs : String → Option (List Nat)) (o : NewOracle)
    (instances0 : Nat) : NewOutcome :=
  match self.buildArgs fs with
  | Except.error e =>
    { result := Except.error e, instances := instances0, frees := 0, destroys := 0,
      setParams := none }
  | Except.ok a =>
    RealCugan.new a.gpu a.threads a.tta a.sync_gap a.tile_size a.scale a.noise a.param
      a.bin o instances0

lemma uintAsI32_small (n : Nat) (h : n < 2147483648) : uintAsI32 n = (n : Int) := by
  unfold uintAsI32
  have h2 : n % 4294967296 = n := Nat.mod_eq_of_lt (by omega)
  rw [h2, if_pos h]

lemma pickTile_nil (hb : Int) : pickTile hb [] = 32 := rfl

lemma pickTile_cons (hb t v : Int) (rest : List (Int × Int)) :
    pickTile hb ((t, v) :: rest) = if hb > t then v else pickTile hb rest := by
  by_cases h : hb > t
  · simp [pickTile, List.find?, h]
  · simp [pickTile, List.find?, h]

lemma tile_size_scale2 (gpu : Int) (hg : gpu ≠ -1) (b : Nat) (hb : b < 2147483648) :
    calculate_tile_size 0 2 gpu b =
      if 1300 < b then 400 else if 800 < b then 300 else if 200 < b then 100 else 32 := by
  unfold calculate_tile_size
  rw [if_neg (by simp), if_neg hg]
  simp only [uintAsI32_small b hb, pickTile_cons, pickTile_nil]
  split_ifs <;> omega

lemma tile_size_scale3 (gpu : Int) (hg : gpu ≠ -1) (b : Nat) (hb : b < 2147483648) :
    calculate_tile_size 0 3 gpu b =
      if 3300 < b then 400 else if 1900 < b then 300 else if 950 < b then 200
      else if 320 < b then 100 else 32 := by
  unfold calculate_tile_size
  rw [if_neg (by simp), if_neg hg]
  simp only [uintAsI32_small b hb, pickTile_cons, pickTile_nil]
  split_ifs <;> omega

lemma tile_size_scale4 (gpu : Int) (hg : gpu ≠ -1) (b : Nat) (hb : b < 2147483648) :
    calculate_tile_size 0 4 gpu b =
      if 1690 < b then 400 else if 980 < b then 300 else if 530 < b then 200
      else if 240 < b then 100 else 32 := by
  unfold calculate_tile_size
  rw [if_neg (by simp), if_neg hg]
  simp only [uintAsI32_small b hb, pickTile_cons, pickTile_nil]
  split_ifs <;> omega

/-- C5: a nonzero requested tile size is returned verbatim; with no
override, the CPU sentinel yields 400; otherwise the tile size is selected
from the reported heap budget by the descending per-scale threshold
tables, the scale-3 top threshold being the source's 3300. -/
theorem tile_size_selection :
    ∀ (tile_size scale gpu : Int) (budget : Nat),
      (tile_size ≠ 0 → calculate_tile_size tile_size scale gpu budget = tile_size) ∧
      (calculate_tile_size 0 scale (-1) budget = 400) ∧
      (gpu ≠ -1 → budget < 2147483648 →
        (calculate_tile_size 0 2 gpu budget =
          if 1300 < budget then 400 else if 800 < budget then 300
          else if 200 < budget then 100 else 32) ∧
        (calculate_tile_size 0 3 gpu budget =
          if 3300 < budget then 400 else if 1900 < budget then 300
          else if 950 < budget then 200 else if 320 < budget then 100 else 32) ∧
        (calculate_tile_size 0 4 gpu budget =
          if 1690 < budget then 400 else if 980 < budget then 300
          else if 530 < budget then 200 else if 240 < budget then 100 else 32)) := by
  intro tile_size scale gpu budget
  refine ⟨fun ht => ?_, ?_, fun hg hb => ?_⟩
  · unfold calculate_tile_size
    rw [if_pos ht]
  · unfold calculate_tile_size
    norm_num
  · exact ⟨tile_size_scale2 gpu hg budget hb, tile_size_scale3 gpu hg budget hb,
      tile_size_scale4 gpu hg budget hb⟩

/-- Witness for C5: the override 128 wins over a huge budget, the CPU
sentinel yields 400, and a scale-3 budget of 2000 selects 300. -/
theorem tile_size_selection_witness :
    calculate_tile_size 128 3 0 99999 = 128 ∧
    calculate_tile_size 0 2 (-1) 7 = 400 ∧
    calculate_tile_size 0 3 5 2000 = 300 := by
  refine ⟨(tile_size_selection 128 3 0 99999).1 (by decide),
    (tile_size_selection 0 2 (-1) 7).2.1, ?_⟩
  have h := ((tile_size_selection 0 3 5 2000).2.2 (by decide) (by decide)).2.1
  rw [h]
  decide

/-- C6: prepadding is 18, 14 and 19 for scales 2, 3 and 4, and every other
scale value yields the invalid-scale error. -/
theorem prepadding_table :
    calculate_prepadding 2 = Except.ok 18 ∧
    calculate_prepadding 3 = Except.ok 14 ∧
    calculate_prepadding 4 = Except.ok 19 ∧
    ∀ scale : Int, scale ≠ 2 → scale ≠ 3 → scale ≠ 4 →
      ∃ e, calculate_prepadding scale = Except.error e := by
  refine ⟨rfl, rfl, rfl, fun scale h2 h3 h4 => ?_⟩
  unfold calculate_prepadding
  split
  · simp_all
  · simp_all
  · simp_all
  · exact ⟨_, rfl⟩

/-- Witness for C6: scale 5 fails. -/
theorem prepadding_table_witness :
    ∃ e, calculate_prepadding 5 = Except.error e :=
  prepadding_table.2.2.2 5 (by decide) (by decide) (by decide)

/-- C7 counterexample: preparation branches on bytes-per-pixel, not on
channel count.  A 1×1 16-bit luminance image (1 channel) is promoted to a
4-channel 8-bit RGBA image, not to 3 channels; a 1×1 16-bit
luminance+alpha image (2 channels) passes through unchanged and is not
promoted to 4 channels. -/
theorem prepare_image_16bit_counterexample :
    (prepare_image (.luma16 1 1 [512]) = (.rgba 1 1 [(2, 2, 2, 255)], 4) ∧
      (prepare_image (.luma16 1 1 [512])).1.channelCount = 4 ∧
      ¬(prepare_image (.luma16 1 1 [512])).1.channelCount = 3) ∧
    (prepare_image (.lumaA16 1 1 [(1000, 2000)]) = (.lumaA16 1 1 [(1000, 2000)], 4) ∧
      (prepare_image (.lumaA16 1 1 [(1000, 2000)])).1.channelCount = 2 ∧
      ¬(prepare_image (.lumaA16 1 1 [(1000, 2000)])).1.channelCount = 4) := by
  exact ⟨⟨rfl, rfl, by decide⟩, ⟨rfl, rfl, by decide⟩⟩

/-- C7 (amended): preparation branches on the pixel's byte width, not the
channel count: an 8-bit luminance image (bytes-per-pixel 1) is promoted to
3 channels with the luminance replicated; any image with bytes-per-pixel
2 — 8-bit luminance+alpha, but also 16-bit luminance — is promoted to
4-channel 8-bit RGBA, replicating luminance and preserving alpha (opaque
when absent); every other image, including the 8-bit 3- and 4-channel
images (which pass through as claimed) and the 16-bit luminance+alpha,
RGB and RGBA variants, passes through unchanged with its bytes-per-pixel
value reported as the channel count. -/
theorem prepare_image_channel_policy :
    ∀ (w h : Nat),
      (∀ px, prepare_image (.luma w h px) =
        (.rgb w h (px.map (fun l => (l, l, l))), 3)) ∧
      (∀ px, prepare_image (.lumaA w h px) =
        (.rgba w h (px.map (fun p => (p.1, p.1, p.1, p.2))), 4)) ∧
      (∀ px, prepare_image (.rgb w h px) = (.rgb w h px, 3)) ∧
      (∀ px, prepare_image (.rgba w h px) = (.rgba w h px, 4)) ∧
      (∀ px, prepare_image (.luma16 w h px) =
        (.rgba w h (px.map (fun l => (u16AsU8 l, u16AsU8 l, u16AsU8 l, 255))), 4)) ∧
      (∀ px, prepare_image (.lumaA16 w h px) = (.lumaA16 w h px, 4)) ∧
      (∀ px, prepare_image (.rgb16 w h px) = (.rgb16 w h px, 6)) ∧
      (∀ px, prepare_image (.rgba16 w h px) = (.rgba16 w h px, 8)) := by
  intro w h
  exact ⟨fun px => rfl, fun px => rfl, fun px => rfl, fun px => rfl,
    fun px => rfl, fun px => rfl, fun px => rfl, fun px => rfl⟩

/-- Witness for C7's amended statement: an 8-bit luminance image is
promoted to RGB with its luminance replicated, and a 16-bit luminance
image is promoted to 8-bit RGBA. -/
theorem prepare_image_channel_policy_witness :
    prepare_image (.luma 2 1 [7, 9]) = (.rgb 2 1 [(7, 7, 7), (9, 9, 9)], 3) ∧
    prepare_image (.luma16 1 1 [514]) = (.rgba 1 1 [(2, 2, 2, 255)], 4) :=
  ⟨(prepare_image_channel_policy 2 1).1 [7, 9],
   (prepare_image_channel_policy 1 1).2.2.2.2.1 [514]⟩

/-- C10: a fresh builder carries GPU device 0, one thread, TTA off, tile
size 0, sync gap 3, scale 2, noise −1, empty model bytes and sync-gap
allowed, and building without any setter passes exactly these values to
construction. -/
theorem builder_defaults :
    Builder.new =
      { files := none,
        parameters :=
          { gpu := 0, tile_size := 0, sync_gap := 3, tta := false, threads := 1 },
        model_parameters :=
          { param := [], bin := [], scale := 2, noise := -1, allow_sync_gap := true } } ∧
    ∀ fs, Builder.new.buildArgs fs =
      Except.ok
        { gpu := 0, threads := 1, tta := false, sync_gap := 3, tile_size := 0,
          scale := 2, noise := -1, param := [], bin := [] } :=
  ⟨rfl, fun _ => rfl⟩

/-- Witness for C10: the default builder resolved against an empty
filesystem passes the default argument tuple. -/
theorem builder_defaults_witness :
    Builder.new.buildArgs (fun _ => none) =
      Except.ok
        { gpu := 0, threads := 1, tta := false, sync_gap := 3, tile_size := 0,
          scale := 2, noise := -1, param := [], bin := [] } :=
  builder_defaults.2 (fun _ => none)

lemma applyOp_clone (s : LifeState) (hs : ¬s.strong = 0) :
    applyOp s .clone = some { s with strong := s.strong + 1 } := by
  simp [applyOp, hs]

lemma applyOp_drop_last (s : LifeState) (hs : s.strong = 1) :
    applyOp s .drop = some { s with
      strong := 0,
      freed := s.freed + (if s.ptrNull then 0 else 1),
      instances := (s.instances + 255) % 256,
      destroys := s.destroys + (if s.instances = 1 then 1 else 0) } := by
  simp [applyOp, hs]

lemma applyOp_drop_shared (s : LifeState) (hs : 2 ≤ s.strong) :
    applyOp s .drop = some { s with strong := s.strong - 1 } := by
  have h0 : ¬s.strong = 0 := by omega
  have h1 : ¬s.strong = 1 := by omega
  simp [applyOp, h0, h1]

lemma applyOps_cons (s : LifeState) (op : HandleOp) (ops : List HandleOp) :
    applyOps s (op :: ops) = (applyOp s op).bind (fun t => applyOps t ops) := rfl

lemma applyOps_append (s : LifeState) (l1 l2 : List HandleOp) :
    applyOps s (l1 ++ l2) = (applyOps s l1).bind (fun t => applyOps t l2) := by
  induction l1 generalizing s with
  | nil => simp [applyOps]
  | cons op ops ih =>
    rw [List.cons_append, applyOps_cons, applyOps_cons]
    cases applyOp s op with
    | none => simp
    | some t => simp [ih]

lemma applyOps_bind_some (s t : LifeState) (l1 l2 : List HandleOp)
    (h1 : applyOps s l1 = some t) :
    applyOps s (l1 ++ l2) = applyOps t l2 := by
  rw [applyOps_append, h1]
  rfl

lemma applyOps_singleton (s : LifeState) (op : HandleOp) :
    applyOps s [op] = applyOp s op := by
  cases h : applyOp s op <;> simp [applyOps_cons, applyOps, h]

lemma clones_run (k : Nat) : ∀ s : LifeState, 1 ≤ s.strong →
    applyOps s (List.replicate k .clone) = some { s with strong := s.strong + k } := by
  induction k with
  | zero => intro s _; rfl
  | succ k ih =>
    intro s hs
    rw [List.replicate_succ, applyOps_cons, applyOp_clone s (by omega)]
    show applyOps { s with strong := s.strong + 1 } (List.replicate k .clone) = _
    rw [ih _ (by show 1 ≤ s.strong + 1; omega)]
    rw [show s.strong + 1 + k = s.strong + (k + 1) from by omega]

lemma drops_run (k : Nat) : ∀ s : LifeState, k + 1 ≤ s.strong →
    applyOps s (List.replicate k .drop) = some { s with strong := s.strong - k } := by
  induction k with
  | zero => intro s _; rfl
  | succ k ih =>
    intro s hs
    rw [List.replicate_succ, applyOps_cons, applyOp_drop_shared s (by omega)]
    show applyOps { s with strong := s.strong - 1 } (List.replicate k .drop) = _
    rw [ih _ (by show k + 1 ≤ s.strong - 1; omega)]
    rw [show s.strong - 1 - k = s.strong - (k + 1) from by omega]

/-- The pointer-free discipline: while any clone is live the pointer has
not been freed, and it is never freed more than once. -/
def FreeDiscipline (s : LifeState) : Prop :=
  (1 ≤ s.strong → s.freed = 0) ∧ s.freed ≤ 1

/-- The instance-counter discipline of a handle constructed when the
counter was zero: while any clone is live the counter reads 1 and no
teardown has happened; once all clones are dropped the counter reads 0 and
teardown happened exactly once. -/
def InstDiscipline (s : LifeState) : Prop :=
  (1 ≤ s.strong → s.instances = 1 ∧ s.destroys = 0) ∧
  (s.strong = 0 → s.instances = 0 ∧ s.destroys = 1)

lemma run_preserved {P : LifeState → Prop}
    (hstep : ∀ s t op, P s → applyOp s op = some t → P t) :
    ∀ (ops : List HandleOp) (s t : LifeState), P s → applyOps s ops = some t → P t := by
  intro ops
  induction ops with
  | nil =>
    intro s t hp h
    exact Option.some.inj h ▸ hp
  | cons op ops ih =>
    intro s t hp h
    rw [applyOps_cons] at h
    cases hop : applyOp s op with
    | none => rw [hop] at h; exact Option.noConfusion h
    | some u => rw [hop] at h; exact ih u t (hstep s u op hp hop) h

lemma freeDiscipline_step (s t : LifeState) (op : HandleOp) (hs : FreeDiscipline s)
    (h : applyOp s op = some t) : FreeDiscipline t := by
  unfold applyOp at h
  by_cases h0 : s.strong = 0
  · rw [if_pos h0] at h; exact Option.noConfusion h
  · rw [if_neg h0] at h
    cases op with
    | clone =>
      obtain rfl := Option.some.inj h
      exact ⟨fun _ => hs.1 (by omega), hs.2⟩
    | drop =>
      by_cases h1 : s.strong = 1
      · rw [if_pos h1] at h
        obtain rfl := Option.some.inj h
        have hf : s.freed = 0 := hs.1 (by omega)
        refine ⟨fun hl => by simp at hl, ?_⟩
        show s.freed + (if s.ptrNull then 0 else 1) ≤ 1
        rw [hf]
        split <;> omega
      · rw [if_neg h1] at h
        obtain rfl := Option.some.inj h
        exact ⟨fun _ => hs.1 (by omega), hs.2⟩

lemma instDiscipline_step (s t : LifeState) (op : HandleOp) (hs : InstDiscipline s)
    (h : applyOp s op = some t) : InstDiscipline t := by
  unfold applyOp at h
  by_cases h0 : s.strong = 0
  · rw [if_pos h0] at h; exact Option.noConfusion h
  · rw [if_neg h0] at h
    cases op with
    | clone =>
      obtain rfl := Option.some.inj h
      exact ⟨fun _ => hs.1 (by omega), fun hz => by simp at hz⟩
    | drop =>
      by_cases h1 : s.strong = 1
      · rw [if_pos h1] at h
        obtain rfl := Option.some.inj h
        obtain ⟨hi, hd⟩ := hs.1 (by omega)
        refine ⟨fun hl => by simp at hl, fun _ => ?_⟩
        show (s.instances + 255) % 256 = 0 ∧
          s.destroys + (if s.instances = 1 then 1 else 0) = 1
        rw [hi, hd]
        norm_num
      · rw [if_neg h1] at h
        obtain rfl := Option.some.inj h
        exact ⟨fun _ => hs.1 (by omega), fun hz => by simp at hz; omega⟩

/-- C1: for a successfully built handle with a non-null pointer, after N
clones exist and any N−1 of them are dropped, the pointer is still
allocated with one live clone left; dropping the last clone frees the
pointer exactly once, and no valid sequence of clones and drops ever
frees it a second time. -/
theorem clone_drop_frees_exactly_once :
    ∀ (h : RealCugan) (i0 : Nat) (N : Nat), h.pointerNull = false → 1 ≤ N →
      (∃ s, applyOps (initLife h i0)
          (List.replicate (N - 1) .clone ++ List.replicate (N - 1) .drop) = some s ∧
        s.freed = 0 ∧ s.strong = 1 ∧
        ∀ t, applyOp s .drop = some t → t.freed = 1 ∧ t.strong = 0) ∧
      (∀ ops u, applyOps (initLife h i0) ops = some u → u.freed ≤ 1) := by
  intro h i0 N hp hN
  constructor
  · have hc := clones_run (N - 1) (initLife h i0) (by show 1 ≤ 1; omega)
    have hd := drops_run (N - 1) { initLife h i0 with strong := (initLife h i0).strong + (N - 1) }
      (by show N - 1 + 1 ≤ 1 + (N - 1); omega)
    refine ⟨_, (applyOps_bind_some _ _ _ _ hc).trans hd, rfl, by show 1 + (N - 1) - (N - 1) = 1; omega, ?_⟩
    intro t ht
    rw [applyOp_drop_last _ (by show 1 + (N - 1) - (N - 1) = 1; omega)] at ht
    obtain rfl := Option.some.inj ht
    constructor
    · show 0 + (if h.pointerNull then 0 else 1) = 1
      rw [hp]
      norm_num
    · rfl
  · intro ops u hrun
    exact (run_preserved freeDiscipline_step ops (initLife h i0) u
      ⟨fun _ => rfl, by show (0 : Nat) ≤ 1; omega⟩ hrun).2

/-- Witness for C1: a concrete non-null handle, N = 3: two clones then two
drops leave the pointer allocated, and the last drop frees it once. -/
theorem clone_drop_frees_exactly_once_witness :
    (∃ s, applyOps (initLife ⟨false, 2, false⟩ 1)
        (List.replicate 2 .clone ++ List.replicate 2 .drop) = some s ∧
      s.freed = 0 ∧ s.strong = 1 ∧
      ∀ t, applyOp s .drop = some t → t.freed = 1 ∧ t.strong = 0) ∧
    (∀ ops u, applyOps (initLife ⟨false, 2, false⟩ 1) ops = some u → u.freed ≤ 1) :=
  clone_drop_frees_exactly_once ⟨false, 2, false⟩ 1 3 rfl (by omega)

/-- C2 counterexample: constructing a CPU-mode handle (gpu = −1) while the
process-wide counter reads 0 succeeds and leaves the counter at 1, so
construction of a CPU-mode handle does not leave the counter unchanged. -/
theorem cpu_construction_increments_counter :
    ∃ h, (RealCugan.new (-1) 1 false 3 400 2 (-1) [0] [0]
        { gpuCount := 0, heapBudget := 0, initPtrNull := false, fmemBinOk := true,
          fmemParamOk := true, loadStatus := 0 } 0).result = Except.ok h ∧
      h.use_cpu = true ∧
      (RealCugan.new (-1) 1 false 3 400 2 (-1) [0] [0]
        { gpuCount := 0, heapBudget := 0, initPtrNull := false, fmemBinOk := true,
          fmemParamOk := true, loadStatus := 0 } 0).instances = 1 := by
  exact ⟨_, rfl, rfl, rfl⟩

/-- C2 (amended): the process-wide counter tracks live handles of both
modes: every successful construction (GPU or CPU) increments it and a
failed construction leaves it unchanged; for a handle built when the
counter was zero, the counter reads 1 while any clone is live, the last
drop of any such handle brings it back to 0, and teardown of the shared
GPU context fires exactly on that transition to zero; in particular after
all K clones of one handle are dropped the counter is back at zero. -/
theorem instance_counter_counts_all_modes :
    (∀ (gpu threads : Int) (tta : Bool) (sync_gap tile_size scale noise : Int)
      (param bin : List Nat) (o : NewOracle) (i0 : Nat),
      (((RealCugan.new gpu threads tta sync_gap tile_size scale noise param bin o
          i0).result).isOk = false ∧
        (RealCugan.new gpu threads tta sync_gap tile_size scale noise param bin o
          i0).instances = i0) ∨
      (((RealCugan.new gpu threads tta sync_gap tile_size scale noise param bin o
          i0).result).isOk = true ∧
        (RealCugan.new gpu threads tta sync_gap tile_size scale noise param bin o
          i0).instances = (i0 + 1) % 256)) ∧
    (∀ (h : RealCugan) (ops : List HandleOp) (u : LifeState),
      applyOps (initLife h 1) ops = some u →
      (1 ≤ u.strong → u.instances = 1 ∧ u.destroys = 0) ∧
      (u.strong = 0 → u.instances = 0 ∧ u.destroys = 1)) ∧
    (∀ (h : RealCugan) (K : Nat), 1 ≤ K →
      ∃ u, applyOps (initLife h 1)
          (List.replicate (K - 1) .clone ++ List.replicate K .drop) = some u ∧
        u.strong = 0 ∧ u.instances = 0 ∧ u.destroys = 1) := by
  refine ⟨?_, ?_, ?_⟩
  · intro gpu threads tta sync_gap tile_size scale noise param bin o i0
    unfold RealCugan.new
    split
    · exact Or.inl ⟨rfl, rfl⟩
    · split
      · exact Or.inl ⟨rfl, rfl⟩
      · split
        · exact Or.inl ⟨rfl, rfl⟩
        · exact Or.inr ⟨rfl, rfl⟩
  · intro h ops u hrun
    exact run_preserved instDiscipline_step ops (initLife h 1) u
      ⟨fun _ => ⟨rfl, rfl⟩, fun hz => by simp [initLife] at hz⟩ hrun
  · intro h K hK
    obtain ⟨k, rfl⟩ : ∃ k, K = k + 1 := ⟨K - 1, by omega⟩
    have hc : applyOps (initLife h 1) (List.replicate k HandleOp.clone) =
        some ⟨1 + k, h.pointerNull, 0, 1, 0⟩ :=
      clones_run k (initLife h 1) (by show 1 ≤ 1; omega)
    have hd : applyOps ⟨1 + k, h.pointerNull, 0, 1, 0⟩ (List.replicate k HandleOp.drop) =
        some ⟨1 + k - k, h.pointerNull, 0, 1, 0⟩ :=
      drops_run k ⟨1 + k, h.pointerNull, 0, 1, 0⟩ (by show k + 1 ≤ 1 + k; omega)
    rw [show 1 + k - k = 1 from by omega] at hd
    have etrace :=
      calc (applyOps (initLife h 1)
            (List.replicate (k + 1 - 1) HandleOp.clone ++ List.replicate (k + 1) HandleOp.drop))
          = applyOps ⟨1 + k, h.pointerNull, 0, 1, 0⟩ (List.replicate (k + 1) HandleOp.drop) :=
          applyOps_bind_some _ _ _ _ hc
      _ = applyOps ⟨1 + k, h.pointerNull, 0, 1, 0⟩
            (List.replicate k HandleOp.drop ++ [HandleOp.drop]) := by
          rw [← List.replicate_succ']
      _ = applyOps ⟨1, h.pointerNull, 0, 1, 0⟩ [HandleOp.drop] :=
          applyOps_bind_some _ _ _ _ hd
      _ = applyOp ⟨1, h.pointerNull, 0, 1, 0⟩ HandleOp.drop := applyOps_singleton _ _
      _ = some ⟨0, h.pointerNull, 0 + (if h.pointerNull then 0 else 1), (1 + 255) % 256,
            0 + (if 1 = 1 then 1 else 0)⟩ := applyOp_drop_last _ rfl
    exact ⟨_, etrace, rfl, by norm_num, by norm_num⟩

/-- Witness for C2's amended statement: a successful CPU construction
increments the counter, and with K = 2 the clone-then-two-drops trace
leaves the counter at zero with exactly one teardown. -/
theorem instance_counter_counts_all_modes_witness :
    ((((RealCugan.new (-1) 1 false 3 400 2 (-1) [] []
        { gpuCount := 0, heapBudget := 0, initPtrNull := false, fmemBinOk := true,
          fmemParamOk := true, loadStatus := 0 } 0).result).isOk = false ∧
      (RealCugan.new (-1) 1 false 3 400 2 (-1) [] []
        { gpuCount := 0, heapBudget := 0, initPtrNull := false, fmemBinOk := true,
          fmemParamOk := true, loadStatus := 0 } 0).instances = 0) ∨
    (((RealCugan.new (-1) 1 false 3 400 2 (-1) [] []
        { gpuCount := 0, heapBudget := 0, initPtrNull := false, fmemBinOk := true,
          fmemParamOk := true, loadStatus := 0 } 0).result).isOk = true ∧
      (RealCugan.new (-1) 1 false 3 400 2 (-1) [] []
        { gpuCount := 0, heapBudget := 0, initPtrNull := false, fmemBinOk := true,
          fmemParamOk := true, loadStatus := 0 } 0).instances = (0 + 1) % 256)) ∧
    ∃ u, applyOps (initLife ⟨false, 2, true⟩ 1)
        (List.replicate 1 .clone ++ List.replicate 2 .drop) = some u ∧
      u.strong = 0 ∧ u.instances = 0 ∧ u.destroys = 1 :=
  ⟨instance_counter_counts_all_modes.1 (-1) 1 false 3 400 2 (-1) [] []
      { gpuCount := 0, heapBudget := 0, initPtrNull := false, fmemBinOk := true,
        fmemParamOk := true, loadStatus := 0 } 0,
    instance_counter_counts_all_modes.2.2 ⟨false, 2, true⟩ 2 (by omega)⟩

/-- C3: the code leaks the partially-initialized context.  At a concrete
construction that fails at the model-load step (non-null context from
`realcugan_init`, load status 1), `RealCugan::new` returns the load error
having made zero `realcugan_free` calls, so the context created by the
init call is not released before the error propagates. -/
theorem load_failure_leaks_context :
    (RealCugan.new 0 1 false 3 400 2 (-1) [0] [0]
      { gpuCount := 1, heapBudget := 1000, initPtrNull := false, fmemBinOk := true,
        fmemParamOk := true, loadStatus := 1 } 0).frees = 0 ∧
    ∃ e, (RealCugan.new 0 1 false 3 400 2 (-1) [0] [0]
      { gpuCount := 1, heapBudget := 1000, initPtrNull := false, fmemBinOk := true,
        fmemParamOk := true, loadStatus := 1 } 0).result = Except.error e := by
  exact ⟨rfl, _, rfl⟩

/-- C4 counterexample: with an explicit path pair whose parameter file is
named `up4x-denoise3x.param`, the build step passes scale 2 and noise −1
(the builder's configured defaults), not the scale 4 and noise 3 that the
claimed filename inference would produce. -/
theorem explicit_paths_no_inference_counterexample :
    ∃ a, (Builder.new.model_files "up4x-denoise3x.param" "up4x-denoise3x.bin").buildArgs
        (fun _ => some [0]) = Except.ok a ∧
      a.scale = 2 ∧ a.noise = -1 ∧ ¬(a.scale = 4 ∧ a.noise = 3) := by
  refine ⟨_, rfl, rfl, rfl, by decide⟩

/-- C4 (amended): with an explicit (param file, bin file) path pair the
build step reads the two files' bytes and passes the builder's configured
scale and noise values unchanged to native initialization; no noise or
scale is inferred from substrings of the parameter file's name. -/
theorem explicit_paths_use_configured_parameters :
    ∀ (b : Builder) (param_file bin_file : String) (fs : String → Option (List Nat))
      (pbytes bbytes : List Nat),
      fs param_file = some pbytes → fs bin_file = some bbytes →
      (b.model_files param_file bin_file).buildArgs fs =
        Except.ok
          { gpu := b.parameters.gpu, threads := b.parameters.threads,
            tta := b.parameters.tta,
            sync_gap :=
              if b.model_parameters.allow_sync_gap then b.parameters.sync_gap else 0,
            tile_size := b.parameters.tile_size, scale := b.model_parameters.scale,
            noise := b.model_parameters.noise, param := pbytes, bin := bbytes } := by
  intro b param_file bin_file fs pbytes bbytes hpf hbf
  unfold Builder.buildArgs Builder.get_bytes Builder.model_files
  simp [hpf, hbf]

/-- Witness for C4's amended statement: a fresh builder with an explicit
path pair passes its default scale 2 and noise −1 with the file bytes. -/
theorem explicit_paths_use_configured_parameters_witness :
    (Builder.new.model_files "m.param" "m.bin").buildArgs
        (fun p => if p = "m.param" then some [1] else some [2]) =
      Except.ok
        { gpu := 0, threads := 1, tta := false, sync_gap := 3, tile_size := 0,
          scale := 2, noise := -1, param := [1], bin := [2] } :=
  explicit_paths_use_configured_parameters Builder.new "m.param" "m.bin"
    (fun p => if p = "m.param" then some [1] else some [2]) [1] [2] rfl rfl

lemma i32TryFromNat_ok {n : Nat} {x : Int} (h : i32TryFromNat n = Except.ok x) :
    x = (n : Int) ∧ (n : Int) ≤ i32Max := by
  unfold i32TryFromNat at h
  split at h
  · exact ⟨(Except.ok.inj h).symm, by assumption⟩
  · exact Except.noConfusion h

lemma i32CheckedMul_some {a b x : Int} (h : i32CheckedMul a b = some x) :
    x = a * b ∧ i32Min ≤ a * b ∧ a * b ≤ i32Max := by
  unfold i32CheckedMul at h
  split at h
  · rename_i hcond
    exact ⟨(Option.some.inj h).symm, hcond.1, hcond.2⟩
  · exact Option.noConfusion h

lemma i32AsU32_of_range {x : Int} (h0 : 0 ≤ x) (h1 : x ≤ i32Max) :
    i32AsU32 x = x.toNat := by
  unfold i32AsU32
  rw [Int.emod_eq_of_lt h0 (by simp only [i32Max] at h1; omega)]

lemma castMul_toNat (n : Nat) (sf : Int) (h : 0 ≤ sf) :
    ((n : Int) * sf).toNat = n * sf.toNat := by
  obtain ⟨m, rfl⟩ := Int.eq_ofNat_of_zero_le h
  rw [← Nat.cast_mul, Int.toNat_natCast, Int.toNat_natCast]

lemma lumaFromRaw_dims {w h : Nat} {bytes : List Nat} {out : DynamicImage}
    (hc : lumaFromRaw w h bytes = some out) : out.width = w ∧ out.height = h := by
  unfold lumaFromRaw at hc
  split at hc
  · obtain rfl := Option.some.inj hc
    exact ⟨rfl, rfl⟩
  · exact Option.noConfusion hc

lemma lumaAFromRaw_dims {w h : Nat} {bytes : List Nat} {out : DynamicImage}
    (hc : lumaAFromRaw w h bytes = some out) : out.width = w ∧ out.height = h := by
  unfold lumaAFromRaw at hc
  split at hc
  · obtain rfl := Option.some.inj hc
    exact ⟨rfl, rfl⟩
  · exact Option.noConfusion hc

lemma rgbFromRaw_dims {w h : Nat} {bytes : List Nat} {out : DynamicImage}
    (hc : rgbFromRaw w h bytes = some out) : out.width = w ∧ out.height = h := by
  unfold rgbFromRaw at hc
  split at hc
  · obtain rfl := Option.some.inj hc
    exact ⟨rfl, rfl⟩
  · exact Option.noConfusion hc

lemma rgbaFromRaw_dims {w h : Nat} {bytes : List Nat} {out : DynamicImage}
    (hc : rgbaFromRaw w h bytes = some out) : out.width = w ∧ out.height = h := by
  unfold rgbaFromRaw at hc
  split at hc
  · obtain rfl := Option.some.inj hc
    exact ⟨rfl, rfl⟩
  · exact Option.noConfusion hc

lemma convert_image_ok_dims {w h c : Nat} {bytes : List Nat} {out : DynamicImage}
    (hcv : convert_image w h c bytes = Except.ok out) :
    out.width = w ∧ out.height = h := by
  unfold convert_image at hcv
  split at hcv
  · rename_i img heq
    obtain rfl := Except.ok.inj hcv
    split at heq
    · exact rgbaFromRaw_dims heq
    · exact rgbFromRaw_dims heq
    · exact lumaAFromRaw_dims heq
    · exact lumaFromRaw_dims heq
    · exact Option.noConfusion heq
  · exact Except.noConfusion hcv

lemma create_input_buffer_ok {image : DynamicImage} {ch : Nat} {ib : Image}
    (h : create_input_buffer image ch = Except.ok ib) :
    ib.w = (image.width : Int) ∧ ib.h = (image.height : Int) ∧ ib.c = (ch : Int) := by
  unfold create_input_buffer at h
  split at h
  · exact Except.noConfusion h
  · rename_i w hw
    split at h
    · exact Except.noConfusion h
    · rename_i hgt hh
      obtain rfl := Except.ok.inj h
      obtain ⟨rfl, _⟩ := i32TryFromNat_ok hw
      obtain ⟨rfl, _⟩ := i32TryFromNat_ok hh
      exact ⟨rfl, rfl, rfl⟩

lemma create_output_buffer_some {sf : Int} {ib : Image} {ch : Nat} {ob : Image}
    (h : create_output_buffer sf ib ch = some ob) :
    ob.w = ib.w * sf ∧ ob.h = ib.h * sf ∧ ob.c = (ch : Int) ∧
    ib.w * sf ≤ i32Max ∧ ib.h * sf ≤ i32Max := by
  unfold create_output_buffer at h
  split at h
  · rename_i w hgt hw hh
    obtain rfl := Option.some.inj h
    obtain ⟨rfl, _, hw2⟩ := i32CheckedMul_some hw
    obtain ⟨rfl, _, hh2⟩ := i32CheckedMul_some hh
    exact ⟨rfl, rfl, rfl, hw2, hh2⟩
  · exact Option.noConfusion h

lemma process_ok_dims {self : RealCugan} {ib ob : Image} {ch : Nat}
    {native : NativeProcessResult} {out : DynamicImage} {eff : ProcEffects}
    (h : self.process ib ob ch native = some (Except.ok out, eff)) :
    out.width = i32AsU32 ob.w ∧ out.height = i32AsU32 ob.h := by
  unfold RealCugan.process at h
  split at h
  · rw [Option.some.injEq, Prod.mk.injEq] at h
    exact Except.noConfusion h.1
  · split at h
    · rw [Option.some.injEq, Prod.mk.injEq] at h
      exact Except.noConfusion h.1
    · split at h
      · exact Option.noConfusion h
      · split at h
        · rw [Option.some.injEq, Prod.mk.injEq] at h
          exact Except.noConfusion h.1
        · rw [Option.some.injEq, Prod.mk.injEq] at h
          exact convert_image_ok_dims h.1

lemma prepare_image_dims (image : DynamicImage) :
    (prepare_image image).1.width = image.width ∧
    (prepare_image image).1.height = image.height := by
  cases image <;> exact ⟨rfl, rfl⟩

/-- C8: with a valid (non-null) handle, a nonzero native status yields the
processing error with the result handle released once and zero bytes read
from the engine buffer; a zero status copies exactly
width×height×channels bytes out of the engine buffer and releases the
result handle exactly once. -/
theorem process_buffer_discipline :
    ∀ (self : RealCugan) (in_buffer out_buffer : Image) (channels : Nat)
      (native : NativeProcessResult),
      self.pointerNull = false →
      (native.status ≠ 0 →
        self.process in_buffer out_buffer channels native =
          some (Except.error "failed to process image", ⟨0, 1⟩)) ∧
      (native.status = 0 → 0 ≤ out_buffer.w → 0 ≤ out_buffer.h → 0 ≤ out_buffer.c →
        out_buffer.h * out_buffer.w ≤ i32Max →
        out_buffer.h * out_buffer.w * out_buffer.c ≤ i32Max →
        ∃ r, self.process in_buffer out_buffer channels native =
          some (r, ⟨(out_buffer.h * out_buffer.w * out_buffer.c).toNat, 1⟩)) := by
  intro self ib ob ch native hp
  constructor
  · intro hst
    unfold RealCugan.process
    rw [hp]
    simp [hst]
  · intro hst h0w h0h h0c hbw hbwc
    have hnn1 : 0 ≤ ob.h * ob.w := mul_nonneg h0h h0w
    have hnn2 : 0 ≤ ob.h * ob.w * ob.c := mul_nonneg hnn1 h0c
    have e1 : i32CheckedMul ob.h ob.w = some (ob.h * ob.w) := by
      unfold i32CheckedMul
      rw [if_pos ⟨by simp only [i32Min]; omega, hbw⟩]
    have e2 : i32CheckedMul (ob.h * ob.w) ob.c = some (ob.h * ob.w * ob.c) := by
      unfold i32CheckedMul
      rw [if_pos ⟨by simp only [i32Min]; omega, hbwc⟩]
    have e3 : (i32CheckedMul ob.h ob.w).bind (fun p => i32CheckedMul p ob.c) =
        some (ob.h * ob.w * ob.c) := by
      rw [e1]
      exact e2
    have e4 : usizeTryFromInt (ob.h * ob.w * ob.c) =
        Except.ok (ob.h * ob.w * ob.c).toNat := by
      unfold usizeTryFromInt
      rw [if_pos hnn2]
    have done : self.process ib ob ch native =
        some (convert_image (i32AsU32 ob.w) (i32AsU32 ob.h) ch
          ((List.range (ob.h * ob.w * ob.c).toNat).map native.buf),
          ⟨(ob.h * ob.w * ob.c).toNat, 1⟩) := by
      unfold RealCugan.process
      rw [hp]
      simp only [hst, e3, e4, Bool.false_eq_true, if_false, ne_eq, not_true_eq_false]
    exact ⟨_, done⟩

/-- Witness for C8: on a 2×2×3 output buffer a failing call yields the
error after one release and no copy, and a succeeding call copies 12 bytes
and releases once. -/
theorem process_buffer_discipline_witness :
    (RealCugan.process ⟨false, 2, false⟩ ⟨1, 1, 3⟩ ⟨2, 2, 3⟩ 3 ⟨1, fun _ => 0⟩ =
      some (Except.error "failed to process image", ⟨0, 1⟩)) ∧
    ∃ r, RealCugan.process ⟨false, 2, false⟩ ⟨1, 1, 3⟩ ⟨2, 2, 3⟩ 3 ⟨0, fun _ => 5⟩ =
      some (r, ⟨12, 1⟩) := by
  constructor
  · exact (process_buffer_discipline ⟨false, 2, false⟩ ⟨1, 1, 3⟩ ⟨2, 2, 3⟩ 3
      ⟨1, fun _ => 0⟩ rfl).1 (by decide)
  · exact (process_buffer_discipline ⟨false, 2, false⟩ ⟨1, 1, 3⟩ ⟨2, 2, 3⟩ 3
      ⟨0, fun _ => 5⟩ rfl).2 rfl (by decide) (by decide) (by decide) (by decide)
      (by decide)

/-- C9: a successful processing call returns an image whose dimensions are
exactly the input dimensions times the handle's scale factor, and two
successful calls on the same image through the same handle agree on the
output dimensions. -/
theorem output_dimensions_scale :
    ∀ (self : RealCugan) (image : DynamicImage),
      0 ≤ self.scale_factor →
      (∀ (native : NativeProcessResult) (out : DynamicImage) (eff : ProcEffects),
        self.process_image image native = some (Except.ok out, eff) →
        out.width = image.width * self.scale_factor.toNat ∧
        out.height = image.height * self.scale_factor.toNat) ∧
      (∀ (n1 n2 : NativeProcessResult) (out1 : DynamicImage) (eff1 : ProcEffects)
        (out2 : DynamicImage) (eff2 : ProcEffects),
        self.process_image image n1 = some (Except.ok out1, eff1) →
        self.process_image image n2 = some (Except.ok out2, eff2) →
        out1.width = out2.width ∧ out1.height = out2.height) := by
  intro self image hsf
  have main : ∀ (native : NativeProcessResult) (out : DynamicImage) (eff : ProcEffects),
      self.process_image image native = some (Except.ok out, eff) →
      out.width = image.width * self.scale_factor.toNat ∧
      out.height = image.height * self.scale_factor.toNat := by
    intro native out eff h
    unfold RealCugan.process_image at h
    rcases hpi : prepare_image image with ⟨img2, ch⟩
    rw [hpi] at h
    have hdw : img2.width = image.width := by
      have hd := (prepare_image_dims image).1
      rw [hpi] at hd
      exact hd
    have hdh : img2.height = image.height := by
      have hd := (prepare_image_dims image).2
      rw [hpi] at hd
      exact hd
    split at h
    rename_i x img3 ch3 heq
    injection heq with e1 e2
    subst e1
    subst e2
    split at h
    · rw [Option.some.injEq, Prod.mk.injEq] at h
      exact Except.noConfusion h.1
    · rename_i ib hib
      split at h
      · exact Option.noConfusion h
      · rename_i ob hob
        obtain ⟨hw, hh, hc⟩ := create_input_buffer_ok hib
        obtain ⟨how, hoh, hoc, hbw, hbh⟩ := create_output_buffer_some hob
        obtain ⟨hdw2, hdh2⟩ := process_ok_dims h
        rw [hw] at how hbw
        rw [hh] at hoh hbh
        have hxw : 0 ≤ (img2.width : Int) * self.scale_factor :=
          mul_nonneg (Int.natCast_nonneg _) hsf
        have hxh : 0 ≤ (img2.height : Int) * self.scale_factor :=
          mul_nonneg (Int.natCast_nonneg _) hsf
        constructor
        · rw [hdw2, how, i32AsU32_of_range hxw hbw,
            castMul_toNat img2.width self.scale_factor hsf, hdw]
        · rw [hdh2, hoh, i32AsU32_of_range hxh hbh,
            castMul_toNat img2.height self.scale_factor hsf, hdh]
  refine ⟨main, ?_⟩
  intro n1 n2 out1 eff1 out2 eff2 h1 h2
  obtain ⟨a1, b1⟩ := main n1 out1 eff1 h1
  obtain ⟨a2, b2⟩ := main n2 out2 eff2 h2
  exact ⟨a1.trans a2.symm, b1.trans b2.symm⟩

/-- Witness for C9: a 1×1 luminance image through a scale-2 handle comes
back as a 2×2 image, matching input dimensions times the scale factor. -/
theorem output_dimensions_scale_witness :
    (RealCugan.process_image ⟨false, 2, false⟩ (.luma 1 1 [5]) ⟨0, fun _ => 9⟩ =
      some (Except.ok (.rgb 2 2 [(9, 9, 9), (9, 9, 9), (9, 9, 9), (9, 9, 9)]), ⟨12, 1⟩)) ∧
    ((DynamicImage.rgb 2 2 [(9, 9, 9), (9, 9, 9), (9, 9, 9), (9, 9, 9)]).width =
      (DynamicImage.luma 1 1 [5]).width * (2 : Int).toNat ∧
     (DynamicImage.rgb 2 2 [(9, 9, 9), (9, 9, 9), (9, 9, 9), (9, 9, 9)]).height =
      (DynamicImage.luma 1 1 [5]).height * (2 : Int).toNat) := by
  constructor
  · rfl
  · exact (output_dimensions_scale ⟨false, 2, false⟩ (.luma 1 1 [5]) (by decide)).1
      ⟨0, fun _ => 9⟩ _ _ (by rfl)

end RealcuganRs
